import Mathlib

/-!
Shallow embedding of the jni-rs safe wrapper layer (object handles,
local/global reference guards, the value union, descriptor resolution and
the map adapter) together with theorems about its reference-lifetime and
error-handling behaviour.

Rust effectful operations are embedded as Lean functions that return their
result together with the list of foreign-runtime calls they issued
(`List JniCall`); the foreign runtime itself (`JNIEnv` / `JavaVM`) is an
oracle: a record of response functions, one per external primitive.
-/

/-- Raw `sys::jobject` pointer, modelled as a natural number; `0` is the
null pointer (`std::ptr::null_mut()`). -/
abbrev jobject := Nat

/-- The null raw pointer. -/
def nullPtr : jobject := 0

/-- Raw `sys::jbyte` (i8); no arithmetic is performed on it, so it is
modelled as an integer. -/
abbrev jbyte := Int

/-- Raw `sys::jchar` (u16). -/
abbrev jchar := Nat

/-- Raw `sys::jshort` (i16). -/
abbrev jshort := Int

/-- Raw `sys::jint` (i32). -/
abbrev jint := Int

/-- Raw `sys::jlong` (i64). -/
abbrev jlong := Int

/-- Raw `sys::jboolean` (u8). -/
abbrev jboolean := Nat

/-- `JNI_TRUE`. -/
def JNI_TRUE : jboolean := 1

/-- `JNI_FALSE`. -/
def JNI_FALSE : jboolean := 0

/-- Raw `sys::jfloat`, kept opaque as a bit pattern: the wrapper never
computes with float values, it only moves them around. -/
structure jfloat where
  bits : Nat
deriving DecidableEq

/-- Raw `sys::jdouble`, kept opaque as a bit pattern. -/
structure jdouble where
  bits : Nat
deriving DecidableEq

/-- `JObject` from `src/wrapper/objects/jobject.rs`: a wrapper around a raw
`sys::jobject` (the `PhantomData` lifetime tag has no runtime content and
is dropped in the embedding). -/
structure JObject where
  internal : jobject
deriving DecidableEq

/-- `JObject::from_raw`. -/
def JObject.from_raw (raw : jobject) : JObject :=
  { internal := raw }

/-- `JObject::into_raw`. -/
def JObject.into_raw (o : JObject) : jobject :=
  o.internal

/-- `JObject::null`: `from_raw(std::ptr::null_mut())`. -/
def JObject.null : JObject :=
  JObject.from_raw nullPtr

/-- `impl Default for JObject`: `Self::null()`. -/
def JObject.default : JObject :=
  JObject.null

/-- `JClass` is a transparent wrapper over `JObject`; the embedding
identifies the two. -/
abbrev JClass := JObject

/-- `JThrowable` is a transparent wrapper over `JObject`; the embedding
identifies the two. -/
abbrev JThrowable := JObject

/-- `JMethodID` from `src/wrapper/objects/jmethodid.rs`: a transparent
wrapper around an opaque `sys::jmethodID` pointer. -/
structure JMethodID where
  internal : Nat
deriving DecidableEq

/-- Modelled from the spec: the error enum (`errors.rs`) is not under
`src/`; this follows the error taxonomy of §7 (not-found, type-mismatch,
null-result, foreign exception) and the constructors the `src/` files
mention (`Error::WrongJValueType`, `Error::NullPtr`). -/
inductive Error where
  | WrongJValueType (expected actual : String)
  | NullPtr (context : String)
  | MethodNotFound (mname msig : String)
  | JavaException
  | Other (msg : String)
deriving DecidableEq

/-- Modelled from the spec: `signature::Primitive` is not under `src/`;
§4.4 lists the primitive kinds of the value union. -/
inductive Primitive where
  | Boolean
  | Byte
  | Char
  | Short
  | Int
  | Long
  | Float
  | Double
  | Void
deriving DecidableEq

/-- Modelled from the spec: `signature::ReturnType` is not under `src/`;
its use in `jmap.rs` distinguishes object returns from primitive returns. -/
inductive ReturnType where
  | Object
  | Primitive (p : Primitive)
deriving DecidableEq

/-- The C `jvalue` union as observed through `JValueOwned::to_jni` — a
tagged record of which field is set and the bits stored there. -/
inductive jvalue where
  | l (p : jobject)
  | b (v : jbyte)
  | c (v : jchar)
  | s (v : jshort)
  | i (v : jint)
  | j (v : jlong)
  | f (v : jfloat)
  | d (v : jdouble)
deriving DecidableEq

/-- `JValueOwned` from `src/wrapper/objects/jvalueowned.rs`. -/
inductive JValueOwned where
  | ObjectV (o : JObject)
  | ByteV (v : jbyte)
  | CharV (v : jchar)
  | ShortV (v : jshort)
  | IntV (v : jint)
  | LongV (v : jlong)
  | BoolV (v : jboolean)
  | FloatV (v : jfloat)
  | DoubleV (v : jdouble)
  | VoidV
deriving DecidableEq

/-- `JValueOwned::to_jni`: the union field written for each variant
(`Bool` is stored through the byte field as `boolean as i8`; `Void` writes
the null object pointer). -/
def JValueOwned.to_jni : JValueOwned → jvalue
  | .ObjectV obj => .l obj.internal
  | .ByteV byte => .b byte
  | .CharV char => .c char
  | .ShortV short => .s short
  | .IntV int => .i int
  | .LongV long => .j long
  | .BoolV boolean => .b (boolean : Int)
  | .FloatV float => .f float
  | .DoubleV double => .d double
  | .VoidV => .l nullPtr

/-- `JValueOwned::type_name`. -/
def JValueOwned.type_name : JValueOwned → String
  | .VoidV => "void"
  | .ObjectV _ => "object"
  | .ByteV _ => "byte"
  | .CharV _ => "char"
  | .ShortV _ => "short"
  | .IntV _ => "int"
  | .LongV _ => "long"
  | .BoolV _ => "bool"
  | .FloatV _ => "float"
  | .DoubleV _ => "double"

/-- `JValueOwned::primitive_type`. -/
def JValueOwned.primitive_type : JValueOwned → Option Primitive
  | .ObjectV _ => none
  | .VoidV => some .Void
  | .ByteV _ => some .Byte
  | .CharV _ => some .Char
  | .ShortV _ => some .Short
  | .IntV _ => some .Int
  | .LongV _ => some .Long
  | .BoolV _ => some .Boolean
  | .FloatV _ => some .Float
  | .DoubleV _ => some .Double

/-- `JValueOwned::l`: try to unwrap to an Object. -/
def JValueOwned.l : JValueOwned → Except Error JObject
  | .ObjectV obj => .ok obj
  | other => .error (.WrongJValueType "object" other.type_name)

/-- `JValueOwned::z`: try to unwrap to a boolean. -/
def JValueOwned.z : JValueOwned → Except Error Bool
  | .BoolV b => .ok (b == JNI_TRUE)
  | other => .error (.WrongJValueType "bool" other.type_name)

/-- `JValueOwned::b`: try to unwrap to a byte. -/
def JValueOwned.b : JValueOwned → Except Error jbyte
  | .ByteV b => .ok b
  | other => .error (.WrongJValueType "jbyte" other.type_name)

/-- `JValueOwned::c`: try to unwrap to a char. -/
def JValueOwned.c : JValueOwned → Except Error jchar
  | .CharV b => .ok b
  | other => .error (.WrongJValueType "jchar" other.type_name)

/-- `JValueOwned::d`: try to unwrap to a double. -/
def JValueOwned.d : JValueOwned → Except Error jdouble
  | .DoubleV b => .ok b
  | other => .error (.WrongJValueType "jdouble" other.type_name)

/-- `JValueOwned::f`: try to unwrap to a float. -/
def JValueOwned.f : JValueOwned → Except Error jfloat
  | .FloatV b => .ok b
  | other => .error (.WrongJValueType "jfloat" other.type_name)

/-- `JValueOwned::i`: try to unwrap to an int. -/
def JValueOwned.i : JValueOwned → Except Error jint
  | .IntV b => .ok b
  | other => .error (.WrongJValueType "jint" other.type_name)

/-- `JValueOwned::j`: try to unwrap to a long. -/
def JValueOwned.j : JValueOwned → Except Error jlong
  | .LongV b => .ok b
  | other => .error (.WrongJValueType "jlong" other.type_name)

/-- `JValueOwned::s`: try to unwrap to a short. -/
def JValueOwned.s : JValueOwned → Except Error jshort
  | .ShortV b => .ok b
  | other => .error (.WrongJValueType "jshort" other.type_name)

/-- `JValueOwned::v`: try to unwrap to a void. -/
def JValueOwned.v : JValueOwned → Except Error Unit
  | .VoidV => .ok ()
  | other => .error (.WrongJValueType "void" other.type_name)

/-- `impl From<T: Into<JObject>> for JValueOwned`. -/
def JValueOwned.ofObject (o : JObject) : JValueOwned :=
  .ObjectV o

/-- `impl From<bool> for JValueOwned`: stores `JNI_TRUE` / `JNI_FALSE`. -/
def JValueOwned.ofBool (x : Bool) : JValueOwned :=
  .BoolV (if x then JNI_TRUE else JNI_FALSE)

/-- `impl From<jboolean> for JValueOwned`. -/
def JValueOwned.ofJBoolean (x : jboolean) : JValueOwned :=
  .BoolV x

/-- `impl From<jchar> for JValueOwned`. -/
def JValueOwned.ofChar (x : jchar) : JValueOwned :=
  .CharV x

/-- `impl From<jshort> for JValueOwned`. -/
def JValueOwned.ofShort (x : jshort) : JValueOwned :=
  .ShortV x

/-- `impl From<jfloat> for JValueOwned`. -/
def JValueOwned.ofFloat (x : jfloat) : JValueOwned :=
  .FloatV x

/-- `impl From<jdouble> for JValueOwned`. -/
def JValueOwned.ofDouble (x : jdouble) : JValueOwned :=
  .DoubleV x

/-- `impl From<jint> for JValueOwned`. -/
def JValueOwned.ofInt (x : jint) : JValueOwned :=
  .IntV x

/-- `impl From<jlong> for JValueOwned`. -/
def JValueOwned.ofLong (x : jlong) : JValueOwned :=
  .LongV x

/-- `impl From<jbyte> for JValueOwned`. -/
def JValueOwned.ofByte (x : jbyte) : JValueOwned :=
  .ByteV x

/-- `impl From<()> for JValueOwned`. -/
def JValueOwned.ofUnit (_ : Unit) : JValueOwned :=
  .VoidV

/-- Claim C10: `JObject::null()` wraps exactly the null raw pointer,
`JObject::default()` equals `JObject::null()`, and for every raw pointer
`p`, `into_raw(from_raw(p))` returns `p` unchanged. -/
theorem jobject_null_raw_roundtrip :
    JObject.null.internal = nullPtr ∧
    JObject.default = JObject.null ∧
    ∀ p : jobject, (JObject.from_raw p).into_raw = p := by
  refine ⟨rfl, rfl, ?_⟩
  intro p
  rfl

/-- Claim C5: for every primitive kind, building a `JValueOwned` from a
native value of that kind and narrowing it back with the kind-specific
accessor returns the original value; narrowing any value with a different
kind's accessor returns `Error::WrongJValueType` whose actual component is
the value's own `type_name`. -/
theorem jvalue_roundtrip_mismatch :
    ((∀ x, (JValueOwned.ofByte x).b = .ok x) ∧
     (∀ x, (JValueOwned.ofChar x).c = .ok x) ∧
     (∀ x, (JValueOwned.ofShort x).s = .ok x) ∧
     (∀ x, (JValueOwned.ofInt x).i = .ok x) ∧
     (∀ x, (JValueOwned.ofLong x).j = .ok x) ∧
     (∀ x, (JValueOwned.ofBool x).z = .ok x) ∧
     (∀ x, (JValueOwned.ofFloat x).f = .ok x) ∧
     (∀ x, (JValueOwned.ofDouble x).d = .ok x) ∧
     (JValueOwned.ofUnit ()).v = .ok () ∧
     (∀ o, (JValueOwned.ofObject o).l = .ok o)) ∧
    ((∀ w : JValueOwned, w.type_name ≠ "object" →
        w.l = .error (.WrongJValueType "object" w.type_name)) ∧
     (∀ w : JValueOwned, w.type_name ≠ "bool" →
        w.z = .error (.WrongJValueType "bool" w.type_name)) ∧
     (∀ w : JValueOwned, w.type_name ≠ "byte" →
        w.b = .error (.WrongJValueType "jbyte" w.type_name)) ∧
     (∀ w : JValueOwned, w.type_name ≠ "char" →
        w.c = .error (.WrongJValueType "jchar" w.type_name)) ∧
     (∀ w : JValueOwned, w.type_name ≠ "short" →
        w.s = .error (.WrongJValueType "jshort" w.type_name)) ∧
     (∀ w : JValueOwned, w.type_name ≠ "int" →
        w.i = .error (.WrongJValueType "jint" w.type_name)) ∧
     (∀ w : JValueOwned, w.type_name ≠ "long" →
        w.j = .error (.WrongJValueType "jlong" w.type_name)) ∧
     (∀ w : JValueOwned, w.type_name ≠ "float" →
        w.f = .error (.WrongJValueType "jfloat" w.type_name)) ∧
     (∀ w : JValueOwned, w.type_name ≠ "double" →
        w.d = .error (.WrongJValueType "jdouble" w.type_name)) ∧
     (∀ w : JValueOwned, w.type_name ≠ "void" →
        w.v = .error (.WrongJValueType "void" w.type_name))) := by
  constructor
  · refine ⟨fun x => rfl, fun x => rfl, fun x => rfl, fun x => rfl, fun x => rfl,
      ?_, fun x => rfl, fun x => rfl, rfl, fun o => rfl⟩
    intro x
    cases x <;> rfl
  · refine ⟨?_, ?_, ?_, ?_, ?_, ?_, ?_, ?_, ?_, ?_⟩ <;>
      · intro w hw
        cases w <;> first
          | rfl
          | exact absurd rfl hw

/-- Concrete check for claim C5: a byte round-trips through its accessor,
and narrowing an int-valued union as a boolean reports the mismatch with
actual kind "int". -/
theorem jvalue_roundtrip_mismatch_witness :
    (JValueOwned.ofByte 7).b = .ok 7 ∧
    (JValueOwned.IntV 0).z = .error (.WrongJValueType "bool" "int") := by
  refine ⟨jvalue_roundtrip_mismatch.1.1 7, ?_⟩
  have h := jvalue_roundtrip_mismatch.2.2.1 (JValueOwned.IntV 0) (by decide)
  exact h

/-- One call into the foreign runtime, recorded in a trace. -/
inductive JniCall where
  | findClass (cname : String)
  | getObjectClass (obj : jobject)
  | getMethodId (cls : jobject) (mname msig : String)
  | callMethod (obj : jobject) (mid : JMethodID) (ret : ReturnType) (args : List jvalue)
  | deleteLocalRef (obj : jobject)
  | deleteGlobalRef (obj : jobject)
  | newString (text : String)
  | newObject (cls : jobject) (ctor_sig : String) (args : List jvalue)
  | getEnv
  | attachCurrentThread
deriving DecidableEq

/-- Modelled from the spec: `JNIEnv` (`jnienv.rs`) is not under `src/`;
§6 specifies its primitives as trusted external calls. The embedding
treats it as an oracle, a record of response functions the wrapper code
consults; each wrapper operation additionally records the calls it issues
as a `List JniCall` trace. -/
structure JNIEnv where
  find_class : String → Except Error jobject
  get_object_class : jobject → Except Error jobject
  get_method_id : jobject → String → String → Except Error JMethodID
  call_method : jobject → JMethodID → ReturnType → List jvalue → Except Error JValueOwned
  delete_local_ref : jobject → Except Error Unit
  new_string : String → Except Error jobject
  new_object : jobject → String → List jvalue → Except Error jobject

/-- `AutoLocal` from `src/wrapper/objects/auto_local.rs`, instantiated at
`T = JObject` (every instantiation used in `src/` dereferences to a
`JObject`); the `env` reference is passed to the operations explicitly. -/
structure AutoLocal where
  obj : JObject

/-- `AutoLocal::new`. -/
def AutoLocal.new (_env : JNIEnv) (obj : JObject) : AutoLocal :=
  { obj }

/-- `JNIEnv::auto_local`, the constructor used by `jmap.rs`. -/
def JNIEnv.auto_local (env : JNIEnv) (obj : JObject) : AutoLocal :=
  AutoLocal.new env obj

/-- `AutoLocal::forget`: rebuilds the bare handle from the stored raw
pointer via `JObject::from_raw` and suppresses the drop (`mem::forget`),
so no foreign call is issued. -/
def AutoLocal.forget (a : AutoLocal) : JObject × List JniCall :=
  (JObject.from_raw a.obj.internal, [])

/-- `impl Drop for AutoLocal`: issues `delete_local_ref` on the stored raw
pointer; an `Err` response is logged (`debug!`) and swallowed, so the
result carries no error channel. -/
def AutoLocal.drop (a : AutoLocal) (env : JNIEnv) : Unit × List JniCall :=
  match env.delete_local_ref a.obj.internal with
  | .ok _ => ((), [.deleteLocalRef a.obj.internal])
  | .error _e => ((), [.deleteLocalRef a.obj.internal])

/-- The two ways an `AutoLocal` value can reach its end of life in Rust:
an explicit `forget` call, or falling out of scope (drop). Exactly one of
the two happens to any given guard. -/
inductive Disposal where
  | forget
  | drop
deriving DecidableEq

/-- End-of-life action of an `AutoLocal`: `forget` returns the bare handle
and suppresses the release; `drop` releases. -/
def AutoLocal.dispose (a : AutoLocal) (env : JNIEnv) :
    Disposal → Option JObject × List JniCall
  | .forget => (some (a.forget).1, (a.forget).2)
  | .drop => (none, (a.drop env).2)

/-- Number of `delete_local_ref` calls in a trace. -/
def releaseCount (t : List JniCall) : Nat :=
  t.countP fun call =>
    match call with
    | .deleteLocalRef _ => true
    | _ => false

/-- Claim C1: across the two possible end-of-life paths of a local
reference guard, the release call happens exactly once on the drop path
and zero times on the forget path; `forget` returns a bare handle with the
same raw pointer; and on drop the `delete_local_ref` failure is swallowed
(the guard's teardown result is the same whatever the runtime answers). -/
theorem autoLocal_single_release (env : JNIEnv) (a : AutoLocal) :
    (∀ d, releaseCount (a.dispose env d).2 =
      match d with
      | .forget => 0
      | .drop => 1) ∧
    a.forget = (JObject.from_raw a.obj.internal, []) ∧
    (∀ e, env.delete_local_ref a.obj.internal = .error e →
      a.drop env = ((), [.deleteLocalRef a.obj.internal])) := by
  refine ⟨?_, rfl, ?_⟩
  · intro d
    cases d
    · rfl
    · show releaseCount (a.drop env).2 = 1
      unfold AutoLocal.drop
      cases env.delete_local_ref a.obj.internal <;> rfl
  · intro e he
    unfold AutoLocal.drop
    rw [he]

/-- A sample oracle whose `delete_local_ref` always fails, to exercise the
swallowed-failure path of `AutoLocal::drop`. -/
def envDelFails : JNIEnv where
  find_class := fun _ => .ok 10
  get_object_class := fun o => .ok (o + 1)
  get_method_id := fun _ mname _ => .ok { internal := mname.length }
  call_method := fun _ _ _ _ => .ok .VoidV
  delete_local_ref := fun _ => .error (.Other "ref table corrupt")
  new_string := fun _ => .ok 20
  new_object := fun _ _ _ => .ok 30

/-- Concrete check for claim C1: a guard over raw pointer 5, against an
oracle whose release call fails, still issues exactly one release call on
drop, returns the same raw pointer on forget, and swallows the failure. -/
theorem autoLocal_single_release_witness :
    releaseCount ((AutoLocal.new envDelFails (JObject.from_raw 5)).dispose
      envDelFails .drop).2 = 1 ∧
    (AutoLocal.new envDelFails (JObject.from_raw 5)).forget =
      (JObject.from_raw 5, []) ∧
    (AutoLocal.new envDelFails (JObject.from_raw 5)).drop envDelFails =
      ((), [.deleteLocalRef 5]) := by
  have h := autoLocal_single_release envDelFails
    (AutoLocal.new envDelFails (JObject.from_raw 5))
  exact ⟨h.1 .drop, h.2.1, h.2.2 (.Other "ref table corrupt") rfl⟩

/-- Modelled from the spec: `JavaVM` is not under `src/`; §6 lists the
thread attach/detach and "get current attachment" primitives used only by
the global-reference guard's drop path. `get_env` answers whether the
current thread already has an attachment; `attach_current_thread` may fail
(its failure is the "connection failure" of §4.3). -/
structure JavaVM where
  get_env : Except Error Unit
  attach_current_thread : Except Error Unit

/-- `GlobalRefGuard` from `src/wrapper/objects/global_ref.rs`: the unique
inner value all clones of a `GlobalRef` share through the `Arc`. -/
structure GlobalRefGuard where
  obj : JObject
  vm : JavaVM

/-- `impl Drop for GlobalRefGuard`: try the current thread's attachment
first (`get_env`); on failure warn, attach the thread and retry; errors of
the whole sequence are logged (`debug!`), never propagated.
`DeleteGlobalRef` itself is issued through `jni_unchecked!` and cannot
fail. -/
def GlobalRefGuard.drop (g : GlobalRefGuard) : Unit × List JniCall :=
  match g.vm.get_env with
  | .ok _ => ((), [.getEnv, .deleteGlobalRef g.obj.internal])
  | .error _ =>
    match g.vm.attach_current_thread with
    | .ok _ => ((), [.getEnv, .attachCurrentThread, .deleteGlobalRef g.obj.internal])
    | .error _e => ((), [.getEnv, .attachCurrentThread])

/-- Whether the current thread already holds an attachment. -/
def getEnvOk (vm : JavaVM) : Bool :=
  match vm.get_env with
  | .ok _ => true
  | .error _ => false

/-- Whether a temporary attach would succeed. -/
def attachOk (vm : JavaVM) : Bool :=
  match vm.attach_current_thread with
  | .ok _ => true
  | .error _ => false

/-- A usable runtime connection is obtainable on the dropping thread. -/
def connectable (vm : JavaVM) : Bool :=
  getEnvOk vm || attachOk vm

/-- Number of `DeleteGlobalRef` calls in a trace. -/
def deleteGlobalCount (t : List JniCall) : Nat :=
  t.countP fun call =>
    match call with
    | .deleteGlobalRef _ => true
    | _ => false

/-- The `Arc` reference count of a `GlobalRef` and its clones, modelled as
the list of live handle identifiers; dropping one handle removes it, and
the shared `GlobalRefGuard` is dropped exactly when the last handle goes
(this is the `Arc::drop` contract the source relies on). -/
def globalRefDropAll (vm : JavaVM) (obj : JObject) :
    List Nat → List Nat → List JniCall
  | _live, [] => []
  | live, x :: rest =>
    (if live.erase x = [] then (GlobalRefGuard.drop { obj, vm }).2 else []) ++
      globalRefDropAll vm obj (live.erase x) rest

/-- Dropping every live handle, in any order, produces exactly the trace
of the single shared guard drop. -/
theorem globalRefDropAll_perm (vm : JavaVM) (obj : JObject) :
    ∀ (order live : List Nat), live.Nodup → order.Perm live → order ≠ [] →
      globalRefDropAll vm obj live order = (GlobalRefGuard.drop { obj, vm }).2 := by
  intro order
  induction order with
  | nil => intro live _ _ hne; exact absurd rfl hne
  | cons x rest ih =>
    intro live hnd hperm _
    obtain ⟨hmem, hperm2⟩ := List.cons_perm_iff_perm_erase.mp hperm
    by_cases hrest : rest = []
    · subst hrest
      have herase : live.erase x = [] := (hperm2.symm).eq_nil
      simp [globalRefDropAll, herase]
    · have herase : live.erase x ≠ [] := by
        intro h0
        rw [h0] at hperm2
        exact hrest hperm2.eq_nil
      simp only [globalRefDropAll, if_neg herase, List.nil_append]
      exact ih (live.erase x) (hnd.erase x) hperm2 hrest

/-- Dropping fewer than all live handles issues no guard-drop calls at
all. -/
theorem globalRefDropAll_take (vm : JavaVM) (obj : JObject) :
    ∀ (order : List Nat), ∀ (live : List Nat) (k : Nat),
      live.Nodup → order.Perm live → k < order.length →
      globalRefDropAll vm obj live (order.take k) = [] := by
  intro order
  induction order with
  | nil => intro live k _ _ hk; exact absurd hk (Nat.not_lt_zero k)
  | cons x rest ih =>
    intro live k hnd hperm hk
    obtain ⟨hmem, hperm2⟩ := List.cons_perm_iff_perm_erase.mp hperm
    match k with
    | 0 => rfl
    | Nat.succ k =>
      have hk2 : k < rest.length := Nat.lt_of_succ_lt_succ hk
      have hrest : rest ≠ [] := by
        intro h0
        rw [h0] at hk2
        exact Nat.not_lt_zero k hk2
      have herase : live.erase x ≠ [] := by
        intro h0
        rw [h0] at hperm2
        exact hrest hperm2.eq_nil
      show globalRefDropAll vm obj live (x :: rest.take k) = []
      simp only [globalRefDropAll, if_neg herase, List.nil_append]
      exact ih (live.erase x) k (hnd.erase x) hperm2 hk2

/-- A sample `JavaVM` whose current thread is attached. -/
def vmAttached : JavaVM where
  get_env := .ok ()
  attach_current_thread := .ok ()

/-- A sample `JavaVM` on a detached thread that also cannot be attached. -/
def vmUnattachable : JavaVM where
  get_env := .error (.Other "detached thread")
  attach_current_thread := .error (.Other "attach failed")

/-- Counterexample to claim C2 as stated: when the dropping thread is
detached and the temporary attach also fails, all handles are dropped yet
the `DeleteGlobalRef` release call happens zero times (the connection
failure is logged, and the release is skipped) — not exactly once. -/
theorem globalRef_release_skipped_when_unattachable :
    deleteGlobalCount (globalRefDropAll vmUnattachable (JObject.from_raw 3)
      [0, 1] [0, 1]) = 0 ∧
    globalRefDropAll vmUnattachable (JObject.from_raw 3) [0, 1] [0, 1] =
      [.getEnv, .attachCurrentThread] := by
  exact ⟨rfl, rfl⟩

/-- Claim C2 (amended): for a global-reference guard cloned `N` times,
dropping the `N + 1` handles in any order fires the shared guard teardown
exactly once, at the last drop and never before; that teardown issues
exactly one `DeleteGlobalRef` call provided a runtime connection is
obtainable (and zero if both the existing attachment and the temporary
attach fail); it consults the current thread's attachment first and
attaches the thread only when there is none; and it never propagates a
failure (its result type has no error channel). -/
theorem globalRef_last_drop_single_release (vm : JavaVM) (obj : JObject)
    (handles order : List Nat) (hnd : handles.Nodup)
    (hperm : order.Perm handles) (hne : order ≠ []) :
    globalRefDropAll vm obj handles order = (GlobalRefGuard.drop { obj, vm }).2 ∧
    (∀ k, k < order.length →
      globalRefDropAll vm obj handles (order.take k) = []) ∧
    deleteGlobalCount (GlobalRefGuard.drop { obj, vm }).2 =
      (if connectable vm then 1 else 0) ∧
    (JniCall.attachCurrentThread ∈ (GlobalRefGuard.drop { obj, vm }).2 ↔
      getEnvOk vm = false) ∧
    (GlobalRefGuard.drop { obj, vm }).2.head? = some .getEnv := by
  refine ⟨globalRefDropAll_perm vm obj order handles hnd hperm hne,
    fun k hk => globalRefDropAll_take vm obj order handles k hnd hperm hk,
    ?_, ?_, ?_⟩
  · unfold GlobalRefGuard.drop deleteGlobalCount connectable getEnvOk attachOk
    cases h1 : vm.get_env with
    | ok u => simp
    | error e =>
      cases h2 : vm.attach_current_thread with
      | ok u => simp
      | error e2 => simp
  · unfold GlobalRefGuard.drop getEnvOk
    cases h1 : vm.get_env with
    | ok u => simp
    | error e =>
      cases h2 : vm.attach_current_thread with
      | ok u => simp
      | error e2 => simp
  · unfold GlobalRefGuard.drop
    cases h1 : vm.get_env with
    | ok u => rfl
    | error e =>
      cases h2 : vm.attach_current_thread with
      | ok u => rfl
      | error e2 => rfl

/-- Concrete check for claim C2 (amended): two clones (three handles),
dropped out of creation order on an attached thread, release the global
reference exactly once and only at the final drop. -/
theorem globalRef_last_drop_single_release_witness :
    globalRefDropAll vmAttached (JObject.from_raw 3) [0, 1, 2] [2, 0, 1] =
      [.getEnv, .deleteGlobalRef 3] ∧
    globalRefDropAll vmAttached (JObject.from_raw 3) [0, 1, 2]
      ([2, 0, 1].take 2) = [] := by
  have h := globalRef_last_drop_single_release vmAttached (JObject.from_raw 3)
    [0, 1, 2] [2, 0, 1] (by decide) (by decide) (by decide)
  exact ⟨h.1, h.2.1 2 (by decide)⟩

/-- `JMap` from `src/wrapper/objects/jmap.rs`. The method-identifier
fields `get`/`put`/`remove` of the source are named `get_id`/`put_id`/
`remove_id` here so the operations can keep their source names. -/
structure JMap where
  internal : JObject
  cls : AutoLocal
  get_id : JMethodID
  put_id : JMethodID
  remove_id : JMethodID
  env : JNIEnv

/-- `JMap::from_env`: looks the class and the three method ids up once; on
a failed lookup the already-created class guard drops (one
`delete_local_ref`) and the error propagates. -/
def JMap.from_env (env : JNIEnv) (obj : JObject) :
    Except Error JMap × List JniCall :=
  match env.find_class "java/util/Map" with
  | .error e => (.error e, [.findClass "java/util/Map"])
  | .ok cls_raw =>
    let cls := env.auto_local (JObject.from_raw cls_raw)
    match env.get_method_id cls_raw "get" "(Ljava/lang/Object;)Ljava/lang/Object;" with
    | .error e =>
      (.error e,
        [.findClass "java/util/Map",
         .getMethodId cls_raw "get" "(Ljava/lang/Object;)Ljava/lang/Object;"] ++
          (cls.drop env).2)
    | .ok get_id =>
      match env.get_method_id cls_raw "put"
          "(Ljava/lang/Object;Ljava/lang/Object;)Ljava/lang/Object;" with
      | .error e =>
        (.error e,
          [.findClass "java/util/Map",
           .getMethodId cls_raw "get" "(Ljava/lang/Object;)Ljava/lang/Object;",
           .getMethodId cls_raw "put"
             "(Ljava/lang/Object;Ljava/lang/Object;)Ljava/lang/Object;"] ++
            (cls.drop env).2)
      | .ok put_id =>
        match env.get_method_id cls_raw "remove"
            "(Ljava/lang/Object;)Ljava/lang/Object;" with
        | .error e =>
          (.error e,
            [.findClass "java/util/Map",
             .getMethodId cls_raw "get" "(Ljava/lang/Object;)Ljava/lang/Object;",
             .getMethodId cls_raw "put"
               "(Ljava/lang/Object;Ljava/lang/Object;)Ljava/lang/Object;",
             .getMethodId cls_raw "remove"
               "(Ljava/lang/Object;)Ljava/lang/Object;"] ++
              (cls.drop env).2)
        | .ok remove_id =>
          (.ok { internal := obj, cls := cls, get_id := get_id,
                 put_id := put_id, remove_id := remove_id, env := env },
            [.findClass "java/util/Map",
             .getMethodId cls_raw "get" "(Ljava/lang/Object;)Ljava/lang/Object;",
             .getMethodId cls_raw "put"
               "(Ljava/lang/Object;Ljava/lang/Object;)Ljava/lang/Object;",
             .getMethodId cls_raw "remove"
               "(Ljava/lang/Object;)Ljava/lang/Object;"])

/-- `JMap::get`: one unchecked method call with the cached id; an `Ok`
value is narrowed with `l()`, `Err(NullPtr)` becomes `Ok(None)`, any other
error propagates unchanged. -/
def JMap.get (m : JMap) (key : JObject) :
    Except Error (Option JObject) × List JniCall :=
  match m.env.call_method m.internal.internal m.get_id .Object
      [jvalue.l key.internal] with
  | .ok val =>
    match val.l with
    | .ok o => (.ok (some o), [.callMethod m.internal.internal m.get_id .Object [jvalue.l key.internal]])
    | .error e2 => (.error e2, [.callMethod m.internal.internal m.get_id .Object [jvalue.l key.internal]])
  | .error e =>
    match e with
    | .NullPtr _ => (.ok none, [.callMethod m.internal.internal m.get_id .Object [jvalue.l key.internal]])
    | other => (.error other, [.callMethod m.internal.internal m.get_id .Object [jvalue.l key.internal]])

/-- `JMap::put`: same shape as `get` with two arguments. -/
def JMap.put (m : JMap) (key value : JObject) :
    Except Error (Option JObject) × List JniCall :=
  match m.env.call_method m.internal.internal m.put_id .Object
      [jvalue.l key.internal, jvalue.l value.internal] with
  | .ok val =>
    match val.l with
    | .ok o => (.ok (some o), [.callMethod m.internal.internal m.put_id .Object [jvalue.l key.internal, jvalue.l value.internal]])
    | .error e2 => (.error e2, [.callMethod m.internal.internal m.put_id .Object [jvalue.l key.internal, jvalue.l value.internal]])
  | .error e =>
    match e with
    | .NullPtr _ => (.ok none, [.callMethod m.internal.internal m.put_id .Object [jvalue.l key.internal, jvalue.l value.internal]])
    | other => (.error other, [.callMethod m.internal.internal m.put_id .Object [jvalue.l key.internal, jvalue.l value.internal]])

/-- `JMap::remove`: same shape as `get` with the `remove` id. -/
def JMap.remove (m : JMap) (key : JObject) :
    Except Error (Option JObject) × List JniCall :=
  match m.env.call_method m.internal.internal m.remove_id .Object
      [jvalue.l key.internal] with
  | .ok val =>
    match val.l with
    | .ok o => (.ok (some o), [.callMethod m.internal.internal m.remove_id .Object [jvalue.l key.internal]])
    | .error e2 => (.error e2, [.callMethod m.internal.internal m.remove_id .Object [jvalue.l key.internal]])
  | .error e =>
    match e with
    | .NullPtr _ => (.ok none, [.callMethod m.internal.internal m.remove_id .Object [jvalue.l key.internal]])
    | other => (.error other, [.callMethod m.internal.internal m.remove_id .Object [jvalue.l key.internal]])

/-- Claim C3: `get`/`put`/`remove` each issue exactly one method call with
the identifier cached by `from_env`; an `Err(NullPtr)` response (the
foreign-side null return) maps to `Ok(None)`; an object response maps to
`Ok(Some _)`; any other failure is returned unchanged; and a successful
`from_env` caches exactly the identifiers the runtime answered for the
three names on the looked-up class. -/
theorem jmap_ops_single_cached_call (m : JMap) (key value : JObject) :
    ((m.get key).2 =
        [.callMethod m.internal.internal m.get_id .Object [jvalue.l key.internal]] ∧
     (m.put key value).2 =
        [.callMethod m.internal.internal m.put_id .Object
          [jvalue.l key.internal, jvalue.l value.internal]] ∧
     (m.remove key).2 =
        [.callMethod m.internal.internal m.remove_id .Object
          [jvalue.l key.internal]]) ∧
    ((∀ ctx, m.env.call_method m.internal.internal m.get_id .Object
        [jvalue.l key.internal] = .error (.NullPtr ctx) →
        (m.get key).1 = .ok none) ∧
     (∀ o, m.env.call_method m.internal.internal m.get_id .Object
        [jvalue.l key.internal] = .ok (.ObjectV o) →
        (m.get key).1 = .ok (some o)) ∧
     (∀ e, m.env.call_method m.internal.internal m.get_id .Object
        [jvalue.l key.internal] = .error e → (∀ ctx, e ≠ .NullPtr ctx) →
        (m.get key).1 = .error e)) ∧
    ((∀ ctx, m.env.call_method m.internal.internal m.put_id .Object
        [jvalue.l key.internal, jvalue.l value.internal] = .error (.NullPtr ctx) →
        (m.put key value).1 = .ok none) ∧
     (∀ o, m.env.call_method m.internal.internal m.put_id .Object
        [jvalue.l key.internal, jvalue.l value.internal] = .ok (.ObjectV o) →
        (m.put key value).1 = .ok (some o)) ∧
     (∀ e, m.env.call_method m.internal.internal m.put_id .Object
        [jvalue.l key.internal, jvalue.l value.internal] = .error e →
        (∀ ctx, e ≠ .NullPtr ctx) → (m.put key value).1 = .error e)) ∧
    ((∀ ctx, m.env.call_method m.internal.internal m.remove_id .Object
        [jvalue.l key.internal] = .error (.NullPtr ctx) →
        (m.remove key).1 = .ok none) ∧
     (∀ o, m.env.call_method m.internal.internal m.remove_id .Object
        [jvalue.l key.internal] = .ok (.ObjectV o) →
        (m.remove key).1 = .ok (some o)) ∧
     (∀ e, m.env.call_method m.internal.internal m.remove_id .Object
        [jvalue.l key.internal] = .error e → (∀ ctx, e ≠ .NullPtr ctx) →
        (m.remove key).1 = .error e)) ∧
    (∀ env obj m0 t, JMap.from_env env obj = (.ok m0, t) →
      env.find_class "java/util/Map" = .ok m0.cls.obj.internal ∧
      env.get_method_id m0.cls.obj.internal "get"
        "(Ljava/lang/Object;)Ljava/lang/Object;" = .ok m0.get_id ∧
      env.get_method_id m0.cls.obj.internal "put"
        "(Ljava/lang/Object;Ljava/lang/Object;)Ljava/lang/Object;" = .ok m0.put_id ∧
      env.get_method_id m0.cls.obj.internal "remove"
        "(Ljava/lang/Object;)Ljava/lang/Object;" = .ok m0.remove_id) := by
  refine ⟨⟨?_, ?_, ?_⟩, ⟨?_, ?_, ?_⟩, ⟨?_, ?_, ?_⟩, ⟨?_, ?_, ?_⟩, ?_⟩
  · unfold JMap.get
    cases h : m.env.call_method m.internal.internal m.get_id .Object
        [jvalue.l key.internal] with
    | ok val => cases val <;> rfl
    | error e => cases e <;> rfl
  · unfold JMap.put
    cases h : m.env.call_method m.internal.internal m.put_id .Object
        [jvalue.l key.internal, jvalue.l value.internal] with
    | ok val => cases val <;> rfl
    | error e => cases e <;> rfl
  · unfold JMap.remove
    cases h : m.env.call_method m.internal.internal m.remove_id .Object
        [jvalue.l key.internal] with
    | ok val => cases val <;> rfl
    | error e => cases e <;> rfl
  · intro ctx hresp
    unfold JMap.get
    rw [hresp]
  · intro o hresp
    unfold JMap.get
    rw [hresp]
    rfl
  · intro e hresp hne
    unfold JMap.get
    rw [hresp]
    cases e with
    | NullPtr ctx => exact absurd rfl (hne ctx)
    | WrongJValueType a b => rfl
    | MethodNotFound a b => rfl
    | JavaException => rfl
    | Other msg => rfl
  · intro ctx hresp
    unfold JMap.put
    rw [hresp]
  · intro o hresp
    unfold JMap.put
    rw [hresp]
    rfl
  · intro e hresp hne
    unfold JMap.put
    rw [hresp]
    cases e with
    | NullPtr ctx => exact absurd rfl (hne ctx)
    | WrongJValueType a b => rfl
    | MethodNotFound a b => rfl
    | JavaException => rfl
    | Other msg => rfl
  · intro ctx hresp
    unfold JMap.remove
    rw [hresp]
  · intro o hresp
    unfold JMap.remove
    rw [hresp]
    rfl
  · intro e hresp hne
    unfold JMap.remove
    rw [hresp]
    cases e with
    | NullPtr ctx => exact absurd rfl (hne ctx)
    | WrongJValueType a b => rfl
    | MethodNotFound a b => rfl
    | JavaException => rfl
    | Other msg => rfl
  · intro env obj m0 t h
    unfold JMap.from_env at h
    simp only [JNIEnv.auto_local, AutoLocal.new] at h
    split at h
    · simp at h
    · split at h
      · simp at h
      · split at h
        · simp at h
        · split at h
          · simp at h
          · simp only [Prod.mk.injEq, Except.ok.injEq] at h
            obtain ⟨h1, h2⟩ := h
            subst h1
            refine ⟨?_, ?_, ?_, ?_⟩ <;> assumption

/-- A sample oracle whose method calls all answer the foreign-side null
return (`Err(NullPtr)`). -/
def envNullCalls : JNIEnv where
  find_class := fun _ => .ok 10
  get_object_class := fun o => .ok (o + 1)
  get_method_id := fun _ mname _ => .ok { internal := mname.length }
  call_method := fun _ _ _ _ => .error (.NullPtr "call_method_unchecked")
  delete_local_ref := fun _ => .ok ()
  new_string := fun _ => .ok 20
  new_object := fun _ _ _ => .ok 30

/-- A concrete map adapter over `envNullCalls`. -/
def mapNull : JMap where
  internal := JObject.from_raw 1
  cls := { obj := JObject.from_raw 10 }
  get_id := { internal := 2 }
  put_id := { internal := 3 }
  remove_id := { internal := 4 }
  env := envNullCalls

/-- The map adapter `JMap.from_env envDelFails (JObject.from_raw 9)`
produces (`get`/`put`/`remove` ids are the name lengths `envDelFails`
answers). -/
def mapA : JMap where
  internal := JObject.from_raw 9
  cls := { obj := JObject.from_raw 10 }
  get_id := { internal := 3 }
  put_id := { internal := 3 }
  remove_id := { internal := 6 }
  env := envDelFails

/-- Concrete check for claim C3: a null foreign return surfaces as
`Ok(None)`, the single issued call uses the cached identifier, and
`from_env` caches the runtime's answer for "get" on the looked-up class. -/
theorem jmap_ops_single_cached_call_witness :
    (JMap.get mapNull (JObject.from_raw 7)).1 = .ok none ∧
    (JMap.get mapNull (JObject.from_raw 7)).2 =
      [.callMethod 1 { internal := 2 } .Object [jvalue.l 7]] ∧
    envDelFails.get_method_id mapA.cls.obj.internal "get"
      "(Ljava/lang/Object;)Ljava/lang/Object;" = .ok mapA.get_id := by
  have h := jmap_ops_single_cached_call mapNull (JObject.from_raw 7)
    (JObject.from_raw 8)
  have h2 := (jmap_ops_single_cached_call mapA (JObject.from_raw 7)
      (JObject.from_raw 8)).2.2.2.2 envDelFails (JObject.from_raw 9) mapA
    [.findClass "java/util/Map",
     .getMethodId 10 "get" "(Ljava/lang/Object;)Ljava/lang/Object;",
     .getMethodId 10 "put" "(Ljava/lang/Object;Ljava/lang/Object;)Ljava/lang/Object;",
     .getMethodId 10 "remove" "(Ljava/lang/Object;)Ljava/lang/Object;"] rfl
  exact ⟨h.2.1.1 "call_method_unchecked" rfl, h.1.1, h2.2.1⟩

/-- `JMapIter` from `src/wrapper/objects/jmap.rs`. The source field `next`
is named `next_id` so the `Iterator::next` operation can keep its name. -/
structure JMapIter where
  map : JMap
  has_next : JMethodID
  next_id : JMethodID
  get_key : JMethodID
  get_value : JMethodID
  iter : AutoLocal

/-- `JMapIter::get_next`: has-next call, then (if true) next-element call,
the entry wrapped in an `AutoLocal` whose release fires at the end of the
function body — also on the early-error exits after it was created — then
get-key and get-value calls. -/
def JMapIter.get_next (it : JMapIter) :
    Except Error (Option (JObject × JObject)) × List JniCall :=
  match it.map.env.call_method it.iter.obj.internal it.has_next
      (.Primitive .Boolean) [] with
  | .error e =>
    (.error e,
      [.callMethod it.iter.obj.internal it.has_next (.Primitive .Boolean) []])
  | .ok v1 =>
    match v1.z with
    | .error e =>
      (.error e,
        [.callMethod it.iter.obj.internal it.has_next (.Primitive .Boolean) []])
    | .ok hasNext =>
      if hasNext then
        match it.map.env.call_method it.iter.obj.internal it.next_id .Object [] with
        | .error e =>
          (.error e,
            [.callMethod it.iter.obj.internal it.has_next (.Primitive .Boolean) [],
             .callMethod it.iter.obj.internal it.next_id .Object []])
        | .ok v2 =>
          match v2.l with
          | .error e =>
            (.error e,
              [.callMethod it.iter.obj.internal it.has_next (.Primitive .Boolean) [],
               .callMethod it.iter.obj.internal it.next_id .Object []])
          | .ok entry =>
            match it.map.env.call_method entry.internal it.get_key .Object [] with
            | .error e =>
              (.error e,
                [.callMethod it.iter.obj.internal it.has_next (.Primitive .Boolean) [],
                 .callMethod it.iter.obj.internal it.next_id .Object [],
                 .callMethod entry.internal it.get_key .Object []] ++
                  ((AutoLocal.new it.map.env entry).drop it.map.env).2)
            | .ok v3 =>
              match v3.l with
              | .error e =>
                (.error e,
                  [.callMethod it.iter.obj.internal it.has_next (.Primitive .Boolean) [],
                   .callMethod it.iter.obj.internal it.next_id .Object [],
                   .callMethod entry.internal it.get_key .Object []] ++
                    ((AutoLocal.new it.map.env entry).drop it.map.env).2)
              | .ok key =>
                match it.map.env.call_method entry.internal it.get_value .Object [] with
                | .error e =>
                  (.error e,
                    [.callMethod it.iter.obj.internal it.has_next (.Primitive .Boolean) [],
                     .callMethod it.iter.obj.internal it.next_id .Object [],
                     .callMethod entry.internal it.get_key .Object [],
                     .callMethod entry.internal it.get_value .Object []] ++
                      ((AutoLocal.new it.map.env entry).drop it.map.env).2)
                | .ok v4 =>
                  match v4.l with
                  | .error e =>
                    (.error e,
                      [.callMethod it.iter.obj.internal it.has_next (.Primitive .Boolean) [],
                       .callMethod it.iter.obj.internal it.next_id .Object [],
                       .callMethod entry.internal it.get_key .Object [],
                       .callMethod entry.internal it.get_value .Object []] ++
                        ((AutoLocal.new it.map.env entry).drop it.map.env).2)
                  | .ok value =>
                    (.ok (some (key, value)),
                      [.callMethod it.iter.obj.internal it.has_next (.Primitive .Boolean) [],
                       .callMethod it.iter.obj.internal it.next_id .Object [],
                       .callMethod entry.internal it.get_key .Object [],
                       .callMethod entry.internal it.get_value .Object []] ++
                        ((AutoLocal.new it.map.env entry).drop it.map.env).2)
      else
        (.ok none,
          [.callMethod it.iter.obj.internal it.has_next (.Primitive .Boolean) []])

/-- `impl Iterator for JMapIter`: `Ok(Some(n))` maps to `Some(n)` and
everything else — exhaustion or any error — maps to `None`. -/
def JMapIter.next (it : JMapIter) : Option (JObject × JObject) × List JniCall :=
  match it.get_next with
  | (.ok (some n), t) => (some n, t)
  | (_, t) => (none, t)

/-- Claim C4: every `get_next` begins with the has-next call; a false
answer ends the step with no item and no further calls; a true answer is
followed, in order, by the next-element call, the entry's guard, the
get-key and get-value calls, and the entry guard's release; and
`Iterator::next` turns every failure into `None` instead of propagating
it, with the same call trace as `get_next`. -/
theorem jmapIter_next_protocol (it : JMapIter) :
    (it.get_next).2.head? =
      some (.callMethod it.iter.obj.internal it.has_next (.Primitive .Boolean) []) ∧
    (∀ b : jboolean, (b == JNI_TRUE) = false →
      it.map.env.call_method it.iter.obj.internal it.has_next
        (.Primitive .Boolean) [] = .ok (.BoolV b) →
      it.get_next = (.ok none,
        [.callMethod it.iter.obj.internal it.has_next (.Primitive .Boolean) []])) ∧
    (∀ entry k v : JObject,
      it.map.env.call_method it.iter.obj.internal it.has_next
        (.Primitive .Boolean) [] = .ok (.BoolV JNI_TRUE) →
      it.map.env.call_method it.iter.obj.internal it.next_id .Object [] =
        .ok (.ObjectV entry) →
      it.map.env.call_method entry.internal it.get_key .Object [] =
        .ok (.ObjectV k) →
      it.map.env.call_method entry.internal it.get_value .Object [] =
        .ok (.ObjectV v) →
      it.get_next = (.ok (some (k, v)),
        [.callMethod it.iter.obj.internal it.has_next (.Primitive .Boolean) [],
         .callMethod it.iter.obj.internal it.next_id .Object [],
         .callMethod entry.internal it.get_key .Object [],
         .callMethod entry.internal it.get_value .Object [],
         .deleteLocalRef entry.internal])) ∧
    (∀ e, (it.get_next).1 = .error e → (it.next).1 = none) ∧
    (it.next).2 = (it.get_next).2 := by
  refine ⟨?_, ?_, ?_, ?_, ?_⟩
  · unfold JMapIter.get_next
    cases h1 : it.map.env.call_method it.iter.obj.internal it.has_next
        (.Primitive .Boolean) [] with
    | error e => rfl
    | ok v1 =>
      cases v1 <;> try rfl
      rename_i b
      simp only [JValueOwned.z]
      cases hb : b == JNI_TRUE
      · rfl
      · rw [if_pos rfl]
        cases h2 : it.map.env.call_method it.iter.obj.internal it.next_id
            .Object [] with
        | error e => rfl
        | ok v2 =>
          cases v2 <;> try rfl
          rename_i entry
          simp only [JValueOwned.l]
          cases h3 : it.map.env.call_method entry.internal it.get_key
              .Object [] with
          | error e => rfl
          | ok v3 =>
            cases v3 <;> try rfl
            rename_i k
            simp only [JValueOwned.l]
            cases h4 : it.map.env.call_method entry.internal it.get_value
                .Object [] with
            | error e => rfl
            | ok v4 => cases v4 <;> rfl
  · intro b hb hresp
    simp only [JMapIter.get_next, hresp, JValueOwned.z, hb, Bool.false_eq_true,
      if_false]
  · intro entry k v h1 h2 h3 h4
    simp only [JMapIter.get_next, h1, h2, h3, h4, JValueOwned.z,
      JValueOwned.l, beq_self_eq_true, if_true]
    cases hd : it.map.env.delete_local_ref entry.internal <;>
      simp [AutoLocal.drop, AutoLocal.new, hd]
  · intro e he
    unfold JMapIter.next
    rcases hp : it.get_next with ⟨fst, snd⟩
    rw [hp] at he
    cases fst with
    | ok val => simp at he
    | error e2 => rfl
  · unfold JMapIter.next
    rcases hp : it.get_next with ⟨fst, snd⟩
    cases fst with
    | ok val =>
      cases val with
      | some n => rfl
      | none => rfl
    | error e2 => rfl

/-- A sample oracle whose method calls always answer boolean false (an
exhausted foreign iterator). -/
def envIterDone : JNIEnv where
  find_class := fun _ => .ok 10
  get_object_class := fun o => .ok (o + 1)
  get_method_id := fun _ mname _ => .ok { internal := mname.length }
  call_method := fun _ _ _ _ => .ok (.BoolV 0)
  delete_local_ref := fun _ => .ok ()
  new_string := fun _ => .ok 20
  new_object := fun _ _ _ => .ok 30

/-- A concrete map adapter over `envIterDone`. -/
def mapDone : JMap where
  internal := JObject.from_raw 1
  cls := { obj := JObject.from_raw 10 }
  get_id := { internal := 2 }
  put_id := { internal := 3 }
  remove_id := { internal := 4 }
  env := envIterDone

/-- A concrete iterator over the exhausted foreign iterator. -/
def iterDone : JMapIter where
  map := mapDone
  has_next := { internal := 21 }
  next_id := { internal := 22 }
  get_key := { internal := 23 }
  get_value := { internal := 24 }
  iter := { obj := JObject.from_raw 11 }

/-- A concrete iterator whose foreign calls fail. -/
def iterNull : JMapIter where
  map := mapNull
  has_next := { internal := 21 }
  next_id := { internal := 22 }
  get_key := { internal := 23 }
  get_value := { internal := 24 }
  iter := { obj := JObject.from_raw 11 }

/-- Concrete check for claim C4: an exhausted foreign iterator makes
`get_next` stop after the single has-next call, and a failing call makes
`next()` answer `None` rather than an error. -/
theorem jmapIter_next_protocol_witness :
    iterDone.get_next = (.ok none,
      [.callMethod 11 { internal := 21 } (.Primitive .Boolean) []]) ∧
    (iterNull.next).1 = none := by
  have hd := jmapIter_next_protocol iterDone
  have hn := jmapIter_next_protocol iterNull
  exact ⟨hd.2.1 0 (by decide) rfl,
    hn.2.2.2.1 (.NullPtr "call_method_unchecked") rfl⟩

/-- `FromEnvValue` from `src/wrapper/descriptors/desc.rs`: either a
non-owning reference to an already-resolved value or an owned,
scope-guarded (`AutoLocal`) value. -/
inductive FromEnvValue (T : Type) where
  | Reference (r : T)
  | Owned (auto : AutoLocal)

/-- `FromEnvValue::as_raw` at the object instantiation. -/
def FromEnvValue.as_raw : FromEnvValue JObject → jobject
  | .Owned auto => auto.obj.internal
  | .Reference r => r.internal

/-- `impl FromEnvObject for &T` (desc.rs): resolving a reference to an
already-resolved value returns it as a non-owning `Reference` and touches
the runtime not at all. -/
def FromEnvObject.lookup_self_ref {T : Type} (_env : JNIEnv) (t : T) :
    Except Error (FromEnvValue T) × List JniCall :=
  (.ok (.Reference t), [])

/-- `impl FromEnvId for T` (desc.rs): resolving an already-resolved
handle/identifier returns it unchanged with no runtime call. -/
def FromEnvId.lookup_self {T : Type} (_env : JNIEnv) (t : T) :
    Except Error T × List JniCall :=
  (.ok t, [])

/-- Claim C6: resolving an already-resolved descriptor is a pure identity:
the `&T` object impl returns the same value as a non-owning reference, the
`T` id impl returns it unchanged, and neither issues any foreign call. -/
theorem desc_resolved_identity :
    ∀ (T : Type) (env : JNIEnv) (t : T),
      FromEnvObject.lookup_self_ref env t = (.ok (.Reference t), []) ∧
      FromEnvId.lookup_self env t = (.ok t, []) :=
  fun _ _ _ => ⟨rfl, rfl⟩

/-- The closed set of class-descriptor forms of
`src/wrapper/descriptors/class_desc.rs`: a name string (`Into<JNIString>`),
a plain object handle (`JObject`), a global reference to a class
(`&GlobalRef<JClass>`, carried by its dereferenced handle), and a local
guard over a class (`&AutoLocal<JClass>`). -/
inductive ClassDesc where
  | name (s : String)
  | obj (o : JObject)
  | globalRef (g : JObject)
  | autoLocalRef (a : AutoLocal)

/-- `FromEnvObject<JClass>` dispatch from `class_desc.rs`: a name does
`find_class` and wraps the result in an owned guard; a plain object does
`get_object_class` and wraps the result in an owned guard; the global-ref
and auto-local forms return a non-owning reference with no call. -/
def ClassDesc.lookup (env : JNIEnv) :
    ClassDesc → Except Error (FromEnvValue JClass) × List JniCall
  | .name s =>
    match env.find_class s with
    | .ok raw => (.ok (.Owned (env.auto_local (JObject.from_raw raw))), [.findClass s])
    | .error e => (.error e, [.findClass s])
  | .obj o =>
    match env.get_object_class o.internal with
    | .ok raw =>
      (.ok (.Owned (env.auto_local (JObject.from_raw raw))), [.getObjectClass o.internal])
    | .error e => (.error e, [.getObjectClass o.internal])
  | .globalRef g => (.ok (.Reference g), [])
  | .autoLocalRef a => (.ok (.Reference a.obj), [])

/-- Counterexample to claim C7 as stated: resolving a class descriptor
given as an existing plain object handle (`JObject`) is not call-free — it
issues one `get_object_class` call and returns an owned guard, not a
non-owning reference to the same handle. -/
theorem classDesc_object_handle_performs_call :
    ClassDesc.lookup envDelFails (.obj (JObject.from_raw 5)) =
      (.ok (.Owned { obj := JObject.from_raw 6 }), [.getObjectClass 5]) ∧
    ([.getObjectClass 5] : List JniCall) ≠ [] := by
  exact ⟨rfl, by decide⟩

/-- Claim C7 (amended): resolving a class descriptor given as a name
string performs exactly one `find_class` call and yields an owned,
scope-guarded handle; given as an existing class handle reference
(`&GlobalRef` or `&AutoLocal`) it returns a non-owning reference to the
same handle with no foreign call; given as a plain object handle
(`JObject`) it performs exactly one `get_object_class` call and yields an
owned, scope-guarded handle of that object's class. -/
theorem classDesc_lookup_behavior (env : JNIEnv) :
    (∀ s raw, env.find_class s = .ok raw →
      ClassDesc.lookup env (.name s) =
        (.ok (.Owned { obj := JObject.from_raw raw }), [.findClass s])) ∧
    (∀ s e, env.find_class s = .error e →
      ClassDesc.lookup env (.name s) = (.error e, [.findClass s])) ∧
    (∀ o raw, env.get_object_class o.internal = .ok raw →
      ClassDesc.lookup env (.obj o) =
        (.ok (.Owned { obj := JObject.from_raw raw }), [.getObjectClass o.internal])) ∧
    (∀ g, ClassDesc.lookup env (.globalRef g) = (.ok (.Reference g), [])) ∧
    (∀ a, ClassDesc.lookup env (.autoLocalRef a) = (.ok (.Reference a.obj), [])) := by
  refine ⟨?_, ?_, ?_, fun g => rfl, fun a => rfl⟩
  · intro s raw h
    simp only [ClassDesc.lookup]
    rw [h]
    rfl
  · intro s e h
    simp only [ClassDesc.lookup]
    rw [h]
  · intro o raw h
    simp only [ClassDesc.lookup]
    rw [h]
    rfl

/-- Concrete check for claim C7 (amended): a name lookup yields one
`find_class` call and an owned guard; a global-ref lookup yields the bare
reference and no calls. -/
theorem classDesc_lookup_behavior_witness :
    ClassDesc.lookup envDelFails (.name "java/lang/String") =
      (.ok (.Owned { obj := JObject.from_raw 10 }), [.findClass "java/lang/String"]) ∧
    ClassDesc.lookup envDelFails (.globalRef (JObject.from_raw 4)) =
      (.ok (.Reference (JObject.from_raw 4)), []) := by
  have h := classDesc_lookup_behavior envDelFails
  exact ⟨h.1 "java/lang/String" 10 rfl, h.2.2.2.1 (JObject.from_raw 4)⟩

/-- `DEFAULT_EXCEPTION_CLASS` from
`src/wrapper/descriptors/exception_desc.rs`. -/
def DEFAULT_EXCEPTION_CLASS : String := "java/lang/RuntimeException"

/-- Modelled from the spec: `JNIEnv::new_object` is not under `src/`; per
§6 (`new_object(class, ctor_signature, args)`) and §4.5 it resolves the
class descriptor it is given — one call per level of the tuple — and then
performs the constructor call on the resolved class. -/
def JNIEnv.new_object_call (env : JNIEnv) (c : ClassDesc) (ctor_sig : String)
    (args : List jvalue) : Except Error JObject × List JniCall :=
  match ClassDesc.lookup env c with
  | (.error e, t) => (.error e, t)
  | (.ok cls, t) =>
    match env.new_object cls.as_raw ctor_sig args with
    | .ok raw => (.ok (JObject.from_raw raw), t ++ [.newObject cls.as_raw ctor_sig args])
    | .error e => (.error e, t ++ [.newObject cls.as_raw ctor_sig args])

/-- `impl FromEnvObject<JThrowable> for (C, M)` from `exception_desc.rs`:
`new_string` on the message first, then `new_object` with the
single-string-argument constructor signature on the class descriptor, the
result wrapped in an owned guard. -/
def exceptionLookupPair (env : JNIEnv) (c : ClassDesc) (msg : String) :
    Except Error (FromEnvValue JThrowable) × List JniCall :=
  match env.new_string msg with
  | .error e => (.error e, [.newString msg])
  | .ok jmsg =>
    match JNIEnv.new_object_call env c "(Ljava/lang/String;)V" [jvalue.l jmsg] with
    | (.error e, t) => (.error e, .newString msg :: t)
    | (.ok obj, t) => (.ok (.Owned (env.auto_local obj)), .newString msg :: t)

/-- The `&str` / `String` / `JNIString` impls of `exception_desc.rs`: all
delegate to the pair form with `DEFAULT_EXCEPTION_CLASS`. -/
def exceptionLookupMsg (env : JNIEnv) (msg : String) :
    Except Error (FromEnvValue JThrowable) × List JniCall :=
  exceptionLookupPair env (.name DEFAULT_EXCEPTION_CLASS) msg

/-- Claim C8: the (class, message) exception descriptor constructs one
foreign string from the message, then invokes the single-string-argument
constructor on the resolved class, yielding an owned scope-guarded
throwable; a failed string construction propagates; and the message-only
descriptor forms delegate to the pair form with the fixed default class
name "java/lang/RuntimeException". -/
theorem exceptionDesc_pair_construction (env : JNIEnv) (c : ClassDesc)
    (msg : String) :
    (∀ jmsg cls t raw,
      env.new_string msg = .ok jmsg →
      ClassDesc.lookup env c = (.ok cls, t) →
      env.new_object cls.as_raw "(Ljava/lang/String;)V" [jvalue.l jmsg] = .ok raw →
      exceptionLookupPair env c msg =
        (.ok (.Owned { obj := JObject.from_raw raw }),
          .newString msg ::
            (t ++ [.newObject cls.as_raw "(Ljava/lang/String;)V" [jvalue.l jmsg]]))) ∧
    (∀ e, env.new_string msg = .error e →
      exceptionLookupPair env c msg = (.error e, [.newString msg])) ∧
    exceptionLookupMsg env msg =
      exceptionLookupPair env (.name "java/lang/RuntimeException") msg := by
  refine ⟨?_, ?_, rfl⟩
  · intro jmsg cls t raw h1 h2 h3
    unfold exceptionLookupPair JNIEnv.new_object_call
    simp only [h1, h2, h3]
    rfl
  · intro e h1
    unfold exceptionLookupPair
    rw [h1]

/-- Concrete check for claim C8: building an exception from
`("java/lang/IllegalStateException", "bad state")` against a sample oracle
creates the message string, resolves the class with one lookup, invokes
the string constructor, and wraps the throwable in an owned guard. -/
theorem exceptionDesc_pair_construction_witness :
    exceptionLookupPair envDelFails (.name "java/lang/IllegalStateException")
      "bad state" =
      (.ok (.Owned { obj := JObject.from_raw 30 }),
        [.newString "bad state", .findClass "java/lang/IllegalStateException",
         .newObject 10 "(Ljava/lang/String;)V" [jvalue.l 20]]) := by
  have h := exceptionDesc_pair_construction envDelFails
    (.name "java/lang/IllegalStateException") "bad state"
  exact h.1 20 (.Owned { obj := JObject.from_raw 10 })
    [.findClass "java/lang/IllegalStateException"] 30 rfl rfl rfl

/-- `impl FromEnvId<JMethodID> for (T, U, V)` from
`src/wrapper/descriptors/method_desc.rs`, which calls
`env.get_method_id(class_desc, name, signature)`. Modelled from the spec
for the `JNIEnv::get_method_id` part (not under `src/`): per §6 and §4.5
it resolves the class descriptor first, then issues one method-id lookup
on the resolved class. -/
def methodLookup3 (env : JNIEnv) (c : ClassDesc) (mname msig : String) :
    Except Error JMethodID × List JniCall :=
  match ClassDesc.lookup env c with
  | (.error e, t) => (.error e, t)
  | (.ok cls, t) =>
    match env.get_method_id cls.as_raw mname msig with
    | .ok mid => (.ok mid, t ++ [.getMethodId cls.as_raw mname msig])
    | .error e => (.error e, t ++ [.getMethodId cls.as_raw mname msig])

/-- `impl FromEnvId<JMethodID> for (T, Signature)` from `method_desc.rs`:
`(self.0, "<init>", self.1).lookup(env)`. -/
def methodLookup2 (env : JNIEnv) (c : ClassDesc) (msig : String) :
    Except Error JMethodID × List JniCall :=
  methodLookup3 env c "<init>" msig

/-- Claim C9: for every environment, class descriptor and signature, the
2-tuple constructor lookup returns exactly the result — value and call
trace — of the 3-tuple lookup with the fixed constructor name `<init>`
inserted. -/
theorem methodDesc_constructor_sugar :
    ∀ (env : JNIEnv) (c : ClassDesc) (msig : String),
      methodLookup2 env c msig = methodLookup3 env c "<init>" msig :=
  fun _ _ _ => rfl
